import Mathlib

/-!
Verification of the `web-blocker` forward proxy (`src/proxy/proxy_server.py`).

The proxy core is embedded shallowly: Python strings become `List Char`
(written `Str`), the mutable blocklist becomes an explicit snapshot argument,
the socket side effects of one handled connection become an explicit trace of
`Event`s, and the network nondeterminism (remote connect success, remote
response chunks, a timeout on the first read) becomes an `Oracle` argument.
Python exceptions are modelled with `Except`: the value carried by `.error`
is the list of events that happened before the exception was raised, and the
outermost `try/except` of `handle_client` turns an error into those events
followed by closing the client socket.
-/

namespace WebBlocker

/-- Python-style strings: a string is its list of characters. -/
abbrev Str := List Char

/-- The ASCII whitespace characters recognised by Python's `str.split()` and
`int()` stripping (space, tab, newline, carriage return, vertical tab,
form feed). -/
def pyIsSpace (c : Char) : Bool :=
  c = ' ' || c = '\t' || c = '\n' || c = '\r' || c = '\x0b' || c = '\x0c'

/-- Python `sep.join`-inverse: `s.split(sep)` for a one-character separator;
keeps empty fields, `[] ↦ [[]]`, matching Python's `"".split(":") == [""]`. -/
def splitChar (sep : Char) : Str → List Str
  | [] => [[]]
  | c :: rest =>
    if c = sep then [] :: splitChar sep rest
    else
      match splitChar sep rest with
      | [] => [[c]]
      | t :: ts => (c :: t) :: ts

/-- Generalisation of `splitChar` to a separator predicate. -/
def splitP (p : Char → Bool) : Str → List Str
  | [] => [[]]
  | c :: rest =>
    if p c then [] :: splitP p rest
    else
      match splitP p rest with
      | [] => [[c]]
      | t :: ts => (c :: t) :: ts

/-- Split on runs of whitespace discarding empty fields: Python `s.split()`. -/
def pyTokens (s : Str) : List Str :=
  (splitP pyIsSpace s).filter (fun t => t ≠ [])

/-- Python `pat in s` for strings: `pat` occurs as a contiguous substring. -/
def isSubstrOf (pat : Str) : Str → Bool
  | [] => pat.isEmpty
  | c :: rest => pat.isPrefixOf (c :: rest) || isSubstrOf pat rest

/-- Locate the first occurrence of a (nonempty) pattern: returns the part
before the match and the part after it, or `none` when the pattern does not
occur.  This is Python `s.split(pat, 1)` restricted to its two outcomes. -/
def splitOnceSub (pat : Str) : Str → Option (Str × Str)
  | [] => if pat.isEmpty then some ([], []) else none
  | c :: rest =>
    if pat.isPrefixOf (c :: rest) then some ([], (c :: rest).drop pat.length)
    else
      match splitOnceSub pat rest with
      | some (pre, post) => some (c :: pre, post)
      | none => none

/-- ASCII upper-casing of one character, as Python `str.upper` acts on ASCII. -/
def pyUpperChar (c : Char) : Char :=
  if 'a' ≤ c ∧ c ≤ 'z' then Char.ofNat (c.toNat - 32) else c

/-- Python `s.upper()` on ASCII strings. -/
def pyUpper (s : Str) : Str := s.map pyUpperChar

/-- Digit-string to number; `none` when empty or a non-digit occurs. -/
def digitsToNat (ds : Str) : Option Nat :=
  if ds = [] then none
  else if ds.all (fun c => c.isDigit) then
    some (ds.foldl (fun a c => 10 * a + (c.toNat - 48)) 0)
  else none

/-- Python `int(s)` on ASCII decimal strings: surrounding whitespace is
stripped, one optional sign is allowed, then decimal digits; `none` models
the `ValueError` Python raises otherwise. -/
def pyInt (s : Str) : Option Int :=
  let t := ((s.dropWhile pyIsSpace).reverse.dropWhile pyIsSpace).reverse
  match t with
  | '+' :: ds => (digitsToNat ds).map (fun n => (n : Int))
  | '-' :: ds => (digitsToNat ds).map (fun n => -(n : Int))
  | ds => (digitsToNat ds).map (fun n => (n : Int))

/-- Body of Python `bytes.replace` for a nonempty pattern `old`: scan left to
right, replacing each non-overlapping occurrence with `new`.  The `fuel`
argument only makes the recursion structural; every scan step consumes at
least one character, so `fuel = s.length` never runs out. -/
def replaceAllGo (old new : Str) : Nat → Str → Str
  | _, [] => []
  | 0, s => s
  | fuel + 1, c :: rest =>
    if old.isPrefixOf (c :: rest) then
      new ++ replaceAllGo old new fuel (rest.drop (old.length - 1))
    else
      c :: replaceAllGo old new fuel rest

/-- Python `s.replace(old, new)`: every non-overlapping occurrence of `old`
is replaced by `new`; with `old = ""`, `new` is inserted around every
character, matching CPython. -/
def replaceAll (old new s : Str) : Str :=
  match old with
  | [] => new ++ s.foldr (fun c acc => c :: (new ++ acc)) []
  | _ :: _ => replaceAllGo old new s.length s

/-! ### The blocklist membership test (`is_blocked`, proxy_server.py:65-66)

`def is_blocked(host): return any(site in host for site in blocked_sites)` -/

/-- Translation of `is_blocked`: the global `blocked_sites` snapshot becomes
the explicit first argument. -/
def is_blocked (blocked_sites : List Str) (host : Str) : Bool :=
  blocked_sites.any (fun site => isSubstrOf site host)

/-! ### Log dispatcher (`enqueue_log` / `log_worker`, proxy_server.py:33-62) -/

/-- A queued log record, as built by `enqueue_log`:
`{"domain": ..., "status": ..., "timestamp": ...}`. -/
structure LogEntry where
  domain : Str
  status : Str
  timestamp : Str
deriving DecidableEq, Repr

/-- Outcome of one `session.post(LOG_ENDPOINT, ...)` call: either a
`requests.RequestException` (transport failure) or an HTTP response with the
given status code. -/
inductive PostResult where
  | exn : PostResult
  | resp (code : Nat) : PostResult
deriving DecidableEq, Repr

/-- One iteration of the `while True` loop of `log_worker`, on an explicit
queue (head = next `get`): returns the queue after the iteration and whether
the consumer backed off (`time.sleep(2)`).  An empty queue models the
`Empty` timeout branch (`continue`).  On a response — of any status code —
the entry is simply dropped (a non-200 only prints a warning); only the
exception branch re-enqueues the entry at the tail and sleeps. -/
def log_worker_step (res : PostResult) (queue : List LogEntry) :
    List LogEntry × Bool :=
  match queue with
  | [] => ([], false)
  | entry :: rest =>
    match res with
    | PostResult.resp _ => (rest, false)
    | PostResult.exn => (rest ++ [entry], true)

/-! ### Blocklist refresh (`fetch_blocked_sites`, proxy_server.py:22-30) -/

/-- Outcome of one `requests.get(f"{FASTAPI_URL}/blocked-sites")` call: a
transport exception, or a response with a status code and — when the body
parses as a JSON list of strings — the parsed list (`none` models
`response.json()` raising). -/
inductive FetchResult where
  | exn : FetchResult
  | resp (code : Nat) (body : Option (List Str)) : FetchResult
deriving DecidableEq

/-- Translation of `fetch_blocked_sites`: the global `blocked_sites` becomes
explicit state.  Only a 200 response with a parsable body replaces the
snapshot; every exception is caught inside the function, every non-200
response is ignored. -/
def fetch_blocked_sites (res : FetchResult) (blocked_sites : List Str) :
    List Str :=
  match res with
  | FetchResult.resp code (some sites) =>
    if code = 200 then sites else blocked_sites
  | _ => blocked_sites

/-- A fetch attempt that does not publish a new snapshot: a transport
exception, a non-200 status, or a 200 whose body fails to parse. -/
def isFetchFailure (res : FetchResult) : Bool :=
  match res with
  | FetchResult.resp code (some _) => code != 200
  | _ => true

/-! ### Connection handler (`handle_client`, proxy_server.py:83-170)

The side effects of one handled connection are recorded as a trace of
events; the nondeterministic environment (first-read timeout, outbound
connect success, remote response chunks) is an `Oracle`. -/

/-- Observable side effects of `handle_client` on one connection. -/
inductive Event where
  | enqueue (domain : Str) (status : Str) : Event
  | sendClient (data : Str) : Event
  | connectRemote (host : Str) (port : Int) : Event
  | sendRemote (data : Str) : Event
  | tunnelStart : Event
  | closeClient : Event
  | closeRemote : Event
deriving DecidableEq, Repr

/-- Environment of one connection: whether the first `recv` times out,
whether `remote.connect` succeeds, and the chunks the remote sends back
before EOF on the plain-HTTP relay path. -/
structure Oracle where
  recvTimeout : Bool
  connectOk : Bool
  remoteChunks : List Str
deriving DecidableEq, Repr

/-- Bytes of the CONNECT-path rejection (proxy_server.py:109). -/
def conn403 : Str := "HTTP/1.1 403 Forbidden\r\n\r\nBlocked by proxy".toList

/-- Bytes of the plain-HTTP rejection (proxy_server.py:143-145). -/
def http403 : Str :=
  "HTTP/1.1 403 Forbidden\r\nContent-Type: text/html\r\n\r\n<h1>Blocked by proxy</h1>".toList

/-- Bytes acknowledging an allowed CONNECT (proxy_server.py:119). -/
def connEstablished : Str := "HTTP/1.1 200 Connection established\r\n\r\n".toList

/-- CONNECT target host: `url.split(":")[0]` (proxy_server.py:101-102). -/
def connectHost (url : Str) : Str := (splitChar ':' url).headD []

/-- CONNECT target port: `int(host_port[1]) if len(host_port) > 1 else 443`
(proxy_server.py:103); `none` models the `ValueError` of `int`. -/
def connectPort (url : Str) : Option Int :=
  let hp := splitChar ':' url
  if hp.length > 1 then pyInt (hp.getD 1 []) else some 443

/-- Scheme stripping (proxy_server.py:126-127): `url.split("://", 1)[1]`
when `"://" in url`, the url itself otherwise. -/
def stripScheme (url : Str) : Str :=
  match splitOnceSub "://".toList url with
  | some (_, post) => post
  | none => url

/-- `url.split("/", 1)[0]` — host[:port] part of a plain-HTTP target
(proxy_server.py:128-129). -/
def httpHostPort (url : Str) : Str := url.takeWhile (fun c => c ≠ '/')

/-- Path of a plain-HTTP target: `"/" + split[1]` when the url has a slash,
`"/"` otherwise (proxy_server.py:130). -/
def httpPath (url : Str) : Str :=
  if url.contains '/' then '/' :: (url.dropWhile (fun c => c ≠ '/')).tail
  else ['/']

/-- Host/port extraction for plain HTTP (proxy_server.py:132-137):
`host, port = host_port.split(":")` — `none` models the `ValueError` raised
either by the unpacking (more than one colon) or by `int(port)`. -/
def httpHostAndPort (hostPort : Str) : Option (Str × Int) :=
  if hostPort.contains ':' then
    match splitChar ':' hostPort with
    | [h, p] => (pyInt p).map (fun n => (h, n))
    | _ => none
  else some (hostPort, 80)

/-- CONNECT branch of `handle_client` (proxy_server.py:100-122).  `.error`
carries the events emitted before an uncaught exception. -/
def handleConnect (blocked : List Str) (url : Str) (net : Oracle) :
    Except (List Event) (List Event) :=
  match connectPort url with
  | none => Except.error []
  | some port =>
    let host := connectHost url
    if is_blocked blocked host then
      Except.ok [Event.enqueue host "BLOCKED".toList,
        Event.sendClient conn403, Event.closeClient]
    else if net.connectOk then
      Except.ok [Event.enqueue host "ALLOWED".toList,
        Event.connectRemote host port, Event.sendClient connEstablished,
        Event.tunnelStart]
    else
      Except.error [Event.enqueue host "ALLOWED".toList]

/-- Plain-HTTP branch of `handle_client` (proxy_server.py:124-164).  The
forwarded request is the buffered request with every occurrence of the
scheme-stripped url replaced by the path (`request.replace(url, path)`). -/
def handleHttp (blocked : List Str) (url0 request : Str) (net : Oracle) :
    Except (List Event) (List Event) :=
  let url := stripScheme url0
  match httpHostAndPort (httpHostPort url) with
  | none => Except.error []
  | some (host, port) =>
    if is_blocked blocked host then
      Except.ok [Event.enqueue host "BLOCKED".toList,
        Event.sendClient http403, Event.closeClient]
    else if net.connectOk then
      Except.ok ([Event.enqueue host "ALLOWED".toList,
        Event.connectRemote host port,
        Event.sendRemote (replaceAll url (httpPath url) request)]
        ++ net.remoteChunks.map Event.sendClient
        ++ [Event.closeClient, Event.closeRemote])
    else
      Except.error [Event.enqueue host "ALLOWED".toList]

/-- First line of the buffered request: `request.split(b'\n')[0]`
(proxy_server.py:91). -/
def firstLineOf (request : Str) : Str := request.takeWhile (fun c => c ≠ '\n')

/-- `first_line.split()` (proxy_server.py:92). -/
def reqTokens (request : Str) : List Str := pyTokens (firstLineOf request)

/-- The method token selecting the tunnel branch (proxy_server.py:100). -/
def connectMethod : Str := "CONNECT".toList

/-- Body of `handle_client` inside its outermost `try` (proxy_server.py:85-164):
empty read or fewer than two tokens close the connection silently; otherwise
the method dispatches to the CONNECT or plain-HTTP branch. -/
def handleClientCore (blocked : List Str) (request : Str) (net : Oracle) :
    Except (List Event) (List Event) :=
  if net.recvTimeout then Except.error []
  else if request = [] then Except.ok [Event.closeClient]
  else
    match reqTokens request with
    | [] => Except.ok [Event.closeClient]
    | [_] => Except.ok [Event.closeClient]
    | method :: url :: _ =>
      if pyUpper method = connectMethod then handleConnect blocked url net
      else handleHttp blocked url request net

/-- `handle_client` (proxy_server.py:83-170): the outermost
`except socket.timeout / except Exception` handlers close the client socket
after whatever side effects already happened. -/
def handle_client (blocked : List Str) (request : Str) (net : Oracle) :
    List Event :=
  match handleClientCore blocked request net with
  | Except.ok evs => evs
  | Except.error evs => evs ++ [Event.closeClient]

/-- Whether an event is the enqueueing of a connection outcome. -/
def isEnqueue (e : Event) : Bool :=
  match e with
  | Event.enqueue _ _ => true
  | _ => false

/-- Number of connection outcomes enqueued in a trace. -/
def countEnqueues (tr : List Event) : Nat := tr.countP isEnqueue

/-- A concrete queued outcome, used for concrete evaluations. -/
def sampleEntry : LogEntry :=
  ⟨"example.com".toList, "BLOCKED".toList, "2026-01-01T00:00:00".toList⟩

/-! ### Structural lemmas about the handler's traces -/

/-- `isSubstrOf` decides the contiguous-substring (list infix) relation. -/
theorem isSubstrOf_iff (pat s : Str) : isSubstrOf pat s = true ↔ pat <:+: s := by
  induction s with
  | nil =>
    simp only [isSubstrOf, List.isEmpty_iff]
    constructor
    · intro h
      simp [h]
    · intro h
      exact List.eq_nil_of_infix_nil h
  | cons c rest ih =>
    simp only [isSubstrOf, Bool.or_eq_true, List.infix_cons_iff,
       List.isPrefixOf_iff_prefix, ih]

/-- Case analysis of the CONNECT branch. -/
theorem handleConnect_cases (b : List Str) (u : Str) (net : Oracle) :
    handleConnect b u net = Except.error []
    ∨ (∃ h, is_blocked b h = true ∧ handleConnect b u net =
        Except.ok [Event.enqueue h "BLOCKED".toList, Event.sendClient conn403,
          Event.closeClient])
    ∨ (∃ h p, is_blocked b h = false ∧ handleConnect b u net =
        Except.ok [Event.enqueue h "ALLOWED".toList, Event.connectRemote h p,
          Event.sendClient connEstablished, Event.tunnelStart])
    ∨ (∃ h, is_blocked b h = false ∧ handleConnect b u net =
        Except.error [Event.enqueue h "ALLOWED".toList]) := by
  rcases hcp : connectPort u with _ | p
  · exact Or.inl (by simp [handleConnect, hcp])
  · by_cases hb : is_blocked b (connectHost u) = true
    · exact Or.inr (Or.inl ⟨connectHost u, hb, by simp [handleConnect, hcp, hb]⟩)
    · have hb' : is_blocked b (connectHost u) = false := by simpa using hb
      by_cases hc : net.connectOk = true
      · exact Or.inr (Or.inr (Or.inl ⟨connectHost u, p, hb',
          by simp [handleConnect, hcp, hb', hc]⟩))
      · have hc' : net.connectOk = false := by simpa using hc
        exact Or.inr (Or.inr (Or.inr ⟨connectHost u, hb',
          by simp [handleConnect, hcp, hb', hc']⟩))

/-- Case analysis of the plain-HTTP branch. -/
theorem handleHttp_cases (b : List Str) (u0 request : Str) (net : Oracle) :
    handleHttp b u0 request net = Except.error []
    ∨ (∃ h, is_blocked b h = true ∧ handleHttp b u0 request net =
        Except.ok [Event.enqueue h "BLOCKED".toList, Event.sendClient http403,
          Event.closeClient])
    ∨ (∃ h p nr, is_blocked b h = false ∧ handleHttp b u0 request net =
        Except.ok ([Event.enqueue h "ALLOWED".toList, Event.connectRemote h p,
          Event.sendRemote nr]
          ++ net.remoteChunks.map Event.sendClient
          ++ [Event.closeClient, Event.closeRemote]))
    ∨ (∃ h, is_blocked b h = false ∧ handleHttp b u0 request net =
        Except.error [Event.enqueue h "ALLOWED".toList]) := by
  rcases hcp : httpHostAndPort (httpHostPort (stripScheme u0)) with _ | ⟨h, p⟩
  · exact Or.inl (by simp [handleHttp, hcp])
  · by_cases hb : is_blocked b h = true
    · exact Or.inr (Or.inl ⟨h, hb, by simp [handleHttp, hcp, hb]⟩)
    · have hb' : is_blocked b h = false := by simpa using hb
      by_cases hc : net.connectOk = true
      · exact Or.inr (Or.inr (Or.inl ⟨h, p,
          replaceAll (stripScheme u0) (httpPath (stripScheme u0)) request, hb',
          by simp [handleHttp, hcp, hb', hc]⟩))
      · have hc' : net.connectOk = false := by simpa using hc
        exact Or.inr (Or.inr (Or.inr ⟨h, hb',
          by simp [handleHttp, hcp, hb', hc']⟩))

/-- Every trace of `handle_client` has one of five shapes: a bare close (no
decision reached, or an exception before the decision), a 403 rejection of a
blocked host, an allowed decision cut short by a failed outbound connect, an
established CONNECT tunnel, or a completed plain-HTTP relay. -/
theorem handle_client_shapes (b : List Str) (req : Str) (net : Oracle) :
    handle_client b req net = [Event.closeClient]
    ∨ (∃ h resp, is_blocked b h = true ∧ (resp = conn403 ∨ resp = http403) ∧
        handle_client b req net =
          [Event.enqueue h "BLOCKED".toList, Event.sendClient resp,
           Event.closeClient])
    ∨ (∃ h, is_blocked b h = false ∧ handle_client b req net =
        [Event.enqueue h "ALLOWED".toList, Event.closeClient])
    ∨ (∃ h p, is_blocked b h = false ∧ handle_client b req net =
        [Event.enqueue h "ALLOWED".toList, Event.connectRemote h p,
         Event.sendClient connEstablished, Event.tunnelStart])
    ∨ (∃ h p nr, is_blocked b h = false ∧ handle_client b req net =
        [Event.enqueue h "ALLOWED".toList, Event.connectRemote h p,
         Event.sendRemote nr]
         ++ net.remoteChunks.map Event.sendClient
         ++ [Event.closeClient, Event.closeRemote]) := by
  by_cases ht : net.recvTimeout = true
  · exact Or.inl (by simp [handle_client, handleClientCore, ht])
  · have ht' : net.recvTimeout = false := by simpa using ht
    by_cases h0 : req = []
    · exact Or.inl (by simp [handle_client, handleClientCore, ht', h0])
    · rcases htk : reqTokens req with _ | ⟨m, _ | ⟨u, rest⟩⟩
      · exact Or.inl (by simp [handle_client, handleClientCore, ht', h0, htk])
      · exact Or.inl (by simp [handle_client, handleClientCore, ht', h0, htk])
      · by_cases hm : pyUpper m = connectMethod
        · have hcc : handle_client b req net =
              (match handleConnect b u net with
               | Except.ok evs => evs
               | Except.error evs => evs ++ [Event.closeClient]) := by
            simp [handle_client, handleClientCore, ht', h0, htk, hm]
          rcases handleConnect_cases b u net with hcase | ⟨h, hb, hcase⟩ |
            ⟨h, p, hb, hcase⟩ | ⟨h, hb, hcase⟩
          · exact Or.inl (by rw [hcc, hcase]; rfl)
          · exact Or.inr (Or.inl ⟨h, conn403, hb, Or.inl rfl, by rw [hcc, hcase]⟩)
          · exact Or.inr (Or.inr (Or.inr (Or.inl ⟨h, p, hb, by rw [hcc, hcase]⟩)))
          · exact Or.inr (Or.inr (Or.inl ⟨h, hb, by rw [hcc, hcase]; rfl⟩))
        · have hcc : handle_client b req net =
              (match handleHttp b u req net with
               | Except.ok evs => evs
               | Except.error evs => evs ++ [Event.closeClient]) := by
            simp [handle_client, handleClientCore, ht', h0, htk, hm]
          rcases handleHttp_cases b u req net with hcase | ⟨h, hb, hcase⟩ |
            ⟨h, p, nr, hb, hcase⟩ | ⟨h, hb, hcase⟩
          · exact Or.inl (by rw [hcc, hcase]; rfl)
          · exact Or.inr (Or.inl ⟨h, http403, hb, Or.inr rfl, by rw [hcc, hcase]⟩)
          · exact Or.inr (Or.inr (Or.inr (Or.inr ⟨h, p, nr, hb, by rw [hcc, hcase]⟩)))
          · exact Or.inr (Or.inr (Or.inl ⟨h, hb, by rw [hcc, hcase]; rfl⟩))

/-- In a trace of the form `x :: tail` whose tail holds no enqueue event,
an enqueue event can only sit at index 0. -/
theorem enqueue_get_eq_zero (x : Event) (tail : List Event)
    (htail : ∀ e ∈ tail, ¬ isEnqueue e = true) :
    ∀ (i : Nat) (h s : Str),
      (x :: tail).get? i = some (Event.enqueue h s) → i = 0 := by
  intro i h s hi
  cases i with
  | zero => rfl
  | succ n =>
    exfalso
    rw [List.get?_cons_succ] at hi
    exact htail _ (List.get?_mem hi) rfl

/-- A trace of the form `x :: tail` whose tail holds no enqueue event holds
at most one enqueue event. -/
theorem countEnqueues_le_one_cons (x : Event) (tail : List Event)
    (htail : ∀ e ∈ tail, ¬ isEnqueue e = true) :
    countEnqueues (x :: tail) ≤ 1 := by
  unfold countEnqueues
  rw [List.countP_cons, List.countP_eq_zero.mpr htail]
  by_cases hx : isEnqueue x = true <;> simp [hx]

/-- If a trace starting with an enqueue event splits around a sendClient
event, the part before the sendClient holds an enqueue event. -/
theorem enqueue_head_of_append (h0 st : Str) (tail pre post : List Event)
    (d : Str)
    (heq : pre ++ Event.sendClient d :: post = Event.enqueue h0 st :: tail) :
    ∃ h s, Event.enqueue h s ∈ pre := by
  cases pre with
  | nil =>
    rw [List.nil_append] at heq
    injection heq with h1 _
    exact Event.noConfusion h1
  | cons x pre2 =>
    rw [List.cons_append] at heq
    injection heq with h1 _
    exact ⟨h0, st, by rw [← h1]; exact List.mem_cons_self x pre2⟩

/-! ### Claims -/

/-- C1: `is_blocked host` is true exactly when some entry of the current
blocklist snapshot occurs as a contiguous substring of the host; in
particular, with entry "bet365.com" in the snapshot, host "mybet365.com" is
blocked. -/
theorem c1_is_blocked_iff_substring :
    (∀ (S : List Str) (h : Str), is_blocked S h = true ↔ ∃ e ∈ S, e <:+: h)
    ∧ is_blocked ["bet365.com".toList] "mybet365.com".toList = true := by
  constructor
  · intro S h
    simp only [is_blocked, List.any_eq_true, isSubstrOf_iff]
  · decide

/-- C10: a snapshot containing the empty string blocks every host, and the
empty snapshot blocks none. -/
theorem c10_empty_entry_blocks_all_empty_list_blocks_none :
    (∀ (S : List Str) (h : Str), [] ∈ S → is_blocked S h = true)
    ∧ (∀ h : Str, is_blocked [] h = false) := by
  constructor
  · intro S h hmem
    simp only [is_blocked, List.any_eq_true]
    exact ⟨[], hmem, (isSubstrOf_iff [] h).mpr List.nil_infix⟩
  · intro h
    rfl

/-- Witness for C10 at a concrete snapshot and host. -/
theorem c10_witness :
    is_blocked [([] : Str)] "anything".toList = true
    ∧ is_blocked [] "anything".toList = false :=
  ⟨c10_empty_entry_blocks_all_empty_list_blocks_none.1 [[]] "anything".toList
      (by simp),
   c10_empty_entry_blocks_all_empty_list_blocks_none.2 "anything".toList⟩

/-- C4: a failed blocklist refresh — transport exception, non-200 status, or
unparsable 200 body — leaves the snapshot exactly as it was, so `is_blocked`
results are unchanged (and, the embedding being total, no error escapes to
callers). -/
theorem c4_failed_refresh_is_noop :
    ∀ (res : FetchResult) (cur : List Str), isFetchFailure res = true →
      fetch_blocked_sites res cur = cur
      ∧ ∀ h, is_blocked (fetch_blocked_sites res cur) h = is_blocked cur h := by
  intro res cur hfail
  have hkeep : fetch_blocked_sites res cur = cur := by
    cases res with
    | exn => rfl
    | resp code body =>
      cases body with
      | none => rfl
      | some sites =>
        have hne : code ≠ 200 := by simpa [isFetchFailure] using hfail
        simp [fetch_blocked_sites, hne]
  exact ⟨hkeep, fun h => by rw [hkeep]⟩

/-- Witness for C4 at a concrete failed fetch. -/
theorem c4_witness :
    fetch_blocked_sites FetchResult.exn ["bet365.com".toList] =
      ["bet365.com".toList]
    ∧ is_blocked
        (fetch_blocked_sites FetchResult.exn ["bet365.com".toList])
        "mybet365.com".toList =
      is_blocked ["bet365.com".toList] "mybet365.com".toList := by
  have h := c4_failed_refresh_is_noop FetchResult.exn ["bet365.com".toList]
    (by decide)
  exact ⟨h.1, h.2 "mybet365.com".toList⟩

/-- C2 counterexample: an outcome whose POST yields an HTTP 500 response (a
non-200 status code, not a transport error) is NOT re-enqueued — the
resulting queue is empty, the entry is dropped, and no backoff happens —
refuting the claim that every non-200 delivery is re-enqueued at the tail. -/
theorem c2_counterexample :
    log_worker_step (PostResult.resp 500) [sampleEntry] = ([], false)
    ∧ sampleEntry ∉ (log_worker_step (PostResult.resp 500) [sampleEntry]).1 := by
  decide

/-- C2 amended: only a transport error (`requests.RequestException`) makes
the log consumer re-enqueue the outcome at the tail and back off; an HTTP
response with any status code — 200 or not — removes the outcome from the
queue with no retry and no backoff. -/
theorem c2_retry_only_on_transport_error :
    ∀ (e : LogEntry) (rest : List LogEntry),
      log_worker_step PostResult.exn (e :: rest) = (rest ++ [e], true)
      ∧ ∀ code, log_worker_step (PostResult.resp code) (e :: rest) =
          (rest, false) := by
  intro e rest
  exact ⟨rfl, fun _ => rfl⟩

/-- C3: evaluating the handler on an allowed `GET http://example.com/`
request shows the forwarded bytes are NOT the origin-form rewrite the spec
describes: the scheme was stripped from the url before
`request.replace(url, path)`, so `"example.com/"` alone is replaced by `"/"`
and the remote receives the request line `GET http:/// HTTP/1.1` instead of
`GET / HTTP/1.1`. -/
theorem c3_rewrite_leaves_scheme_in_request :
    handle_client []
        "GET http://example.com/ HTTP/1.1\r\nHost: example.com\r\n\r\n".toList
        (Oracle.mk false true ["RESPONSE".toList]) =
      [Event.enqueue "example.com".toList "ALLOWED".toList,
       Event.connectRemote "example.com".toList 80,
       Event.sendRemote
         "GET http:/// HTTP/1.1\r\nHost: example.com\r\n\r\n".toList,
       Event.sendClient "RESPONSE".toList,
       Event.closeClient, Event.closeRemote]
    ∧ Event.sendRemote "GET / HTTP/1.1\r\nHost: example.com\r\n\r\n".toList ∉
        handle_client []
          "GET http://example.com/ HTTP/1.1\r\nHost: example.com\r\n\r\n".toList
          (Oracle.mk false true ["RESPONSE".toList]) := by
  decide

/-- C8: a first read yielding no bytes, or a first line with fewer than two
whitespace-separated tokens, makes the handler close the client connection
without enqueuing any outcome. -/
theorem c8_malformed_request_closed_silently :
    ∀ (b : List Str) (req : Str) (net : Oracle), net.recvTimeout = false →
      (req = [] ∨ (reqTokens req).length < 2) →
      handle_client b req net = [Event.closeClient]
      ∧ countEnqueues (handle_client b req net) = 0 := by
  intro b req net ht hcase
  have htr : handle_client b req net = [Event.closeClient] := by
    by_cases h0 : req = []
    · simp [handle_client, handleClientCore, ht, h0]
    · rcases hcase with h0' | h2
      · exact absurd h0' h0
      · rcases htk : reqTokens req with _ | ⟨m, _ | ⟨u, rest⟩⟩
        · simp [handle_client, handleClientCore, ht, h0, htk]
        · simp [handle_client, handleClientCore, ht, h0, htk]
        · rw [htk] at h2
          simp only [List.length_cons] at h2
          exact absurd h2 (by omega)
  exact ⟨htr, by rw [htr]; rfl⟩

/-- Witness for C8 at a concrete malformed request. -/
theorem c8_witness :
    handle_client [] "GARBAGE\r\n".toList (Oracle.mk false true []) =
      [Event.closeClient]
    ∧ countEnqueues
        (handle_client [] "GARBAGE\r\n".toList (Oracle.mk false true [])) = 0 :=
  c8_malformed_request_closed_silently [] "GARBAGE\r\n".toList
    (Oracle.mk false true []) rfl (Or.inr (by decide))

/-- C5: a blocked host is rejected with exactly the specified 403 bytes
(`HTTP/1.1 403 Forbidden\r\n\r\nBlocked by proxy` for CONNECT, the HTML-body
variant for plain HTTP), its BLOCKED outcome is enqueued, the client socket
is closed, and no trace of any connection ever records an outbound connect
to a blocked host. -/
theorem c5_blocked_rejected_never_connected :
    ∀ (b : List Str) (req : Str) (net : Oracle),
      (∀ h p, Event.connectRemote h p ∈ handle_client b req net →
        is_blocked b h = false)
      ∧ (∀ m u rest, net.recvTimeout = false → req ≠ [] →
          reqTokens req = m :: u :: rest →
          ((pyUpper m = connectMethod → ∀ p, connectPort u = some p →
              is_blocked b (connectHost u) = true →
              handle_client b req net =
                [Event.enqueue (connectHost u) "BLOCKED".toList,
                 Event.sendClient conn403, Event.closeClient])
           ∧ (pyUpper m ≠ connectMethod → ∀ hst prt,
              httpHostAndPort (httpHostPort (stripScheme u)) = some (hst, prt) →
              is_blocked b hst = true →
              handle_client b req net =
                [Event.enqueue hst "BLOCKED".toList,
                 Event.sendClient http403, Event.closeClient]))) := by
  intro b req net
  constructor
  · intro h p hmem
    rcases handle_client_shapes b req net with htr | ⟨h0, r0, hb0, _, htr⟩ |
      ⟨h0, hb0, htr⟩ | ⟨h0, p0, hb0, htr⟩ | ⟨h0, p0, nr0, hb0, htr⟩ <;>
      rw [htr] at hmem <;> simp at hmem
    · obtain ⟨h1, _⟩ := hmem
      rw [h1]
      exact hb0
    · obtain ⟨h1, _⟩ := hmem
      rw [h1]
      exact hb0
  · intro m u rest ht h0 htk
    constructor
    · intro hm p hcp hb
      simp [handle_client, handleClientCore, ht, h0, htk, hm, handleConnect,
        hcp, hb]
    · intro hm hst prt hcp hb
      simp [handle_client, handleClientCore, ht, h0, htk, hm, handleHttp,
        hcp, hb]

/-- Witness for C5: the spec's own scenario — snapshot `["bet365.com"]`,
request `CONNECT mybet365.com:443` — yields the BLOCKED outcome, the exact
403 bytes, and a closed connection. -/
theorem c5_witness :
    handle_client ["bet365.com".toList]
        "CONNECT mybet365.com:443 HTTP/1.1\r\n\r\n".toList
        (Oracle.mk false true []) =
      [Event.enqueue "mybet365.com".toList "BLOCKED".toList,
       Event.sendClient conn403, Event.closeClient] := by
  have h := (c5_blocked_rejected_never_connected ["bet365.com".toList]
      "CONNECT mybet365.com:443 HTTP/1.1\r\n\r\n".toList
      (Oracle.mk false true [])).2
    "CONNECT".toList "mybet365.com:443".toList ["HTTP/1.1".toList]
    rfl (by decide) (by decide)
  exact (h.1 (by decide) 443 (by decide) (by decide)).trans (by decide)

/-- C6: within one connection, whenever the trace writes bytes to the client
the ALLOWED/BLOCKED outcome was already enqueued strictly earlier in the
trace. -/
theorem c6_outcome_enqueued_before_client_bytes :
    ∀ (b : List Str) (req : Str) (net : Oracle) (pre : List Event) (d : Str)
      (post : List Event),
      handle_client b req net = pre ++ Event.sendClient d :: post →
      ∃ h s, Event.enqueue h s ∈ pre := by
  intro b req net pre d post heq
  rcases handle_client_shapes b req net with htr | ⟨h0, r0, hb0, _, htr⟩ |
    ⟨h0, hb0, htr⟩ | ⟨h0, p0, hb0, htr⟩ | ⟨h0, p0, nr0, hb0, htr⟩
  · have h2 := heq.symm.trans htr
    have hm : Event.sendClient d ∈ pre ++ Event.sendClient d :: post := by simp
    rw [h2] at hm
    simp at hm
  · exact enqueue_head_of_append h0 "BLOCKED".toList _ pre post d
      (heq.symm.trans htr)
  · exact enqueue_head_of_append h0 "ALLOWED".toList _ pre post d
      (heq.symm.trans htr)
  · exact enqueue_head_of_append h0 "ALLOWED".toList _ pre post d
      (heq.symm.trans htr)
  · simp only [List.cons_append, List.nil_append, List.append_assoc] at htr
    exact enqueue_head_of_append h0 "ALLOWED".toList _ pre post d
      (heq.symm.trans htr)

/-- Witness for C6 at a concrete blocked connection: the 403 bytes are
preceded by the enqueued BLOCKED outcome. -/
theorem c6_witness :
    ∃ h s, Event.enqueue h s ∈
      [Event.enqueue "bet365.com".toList "BLOCKED".toList] :=
  c6_outcome_enqueued_before_client_bytes ["bet365.com".toList]
    "CONNECT bet365.com:443 HTTP/1.1\r\n\r\n".toList (Oracle.mk false true [])
    [Event.enqueue "bet365.com".toList "BLOCKED".toList] conn403
    [Event.closeClient] (by decide)

/-- C7 counterexample: an accepted connection whose first read yields no
bytes produces zero outcomes, not exactly one — the handler closes without
enqueuing. -/
theorem c7_counterexample :
    ¬ countEnqueues (handle_client [] [] (Oracle.mk false true [])) = 1 := by
  decide

/-- C7 amended: every accepted connection produces at most one outcome, and
any outcome produced sits at the very start of the connection's trace — at
the decision point, before relay begins and never after relay ends;
connections that never reach the decision produce none. -/
theorem c7_at_most_one_outcome_at_decision_point :
    ∀ (b : List Str) (req : Str) (net : Oracle),
      countEnqueues (handle_client b req net) ≤ 1
      ∧ ∀ (i : Nat) (h s : Str),
          (handle_client b req net).get? i = some (Event.enqueue h s) →
          i = 0 := by
  intro b req net
  rcases handle_client_shapes b req net with htr | ⟨h0, r0, hb0, _, htr⟩ |
    ⟨h0, hb0, htr⟩ | ⟨h0, p0, hb0, htr⟩ | ⟨h0, p0, nr0, hb0, htr⟩
  · rw [htr]
    exact ⟨countEnqueues_le_one_cons _ _ (by simp),
      enqueue_get_eq_zero _ _ (by simp)⟩
  · rw [htr]
    refine ⟨countEnqueues_le_one_cons _ _ ?_, enqueue_get_eq_zero _ _ ?_⟩ <;>
      · intro e he
        rcases (by simpa using he : e = Event.sendClient r0 ∨
          e = Event.closeClient) with rfl | rfl <;> simp [isEnqueue]
  · rw [htr]
    exact ⟨countEnqueues_le_one_cons _ _ (by simp [isEnqueue]),
      enqueue_get_eq_zero _ _ (by simp [isEnqueue])⟩
  · rw [htr]
    refine ⟨countEnqueues_le_one_cons _ _ ?_, enqueue_get_eq_zero _ _ ?_⟩ <;>
      · intro e he
        rcases (by simpa using he : e = Event.connectRemote h0 p0 ∨
          e = Event.sendClient connEstablished ∨ e = Event.tunnelStart) with
          rfl | rfl | rfl <;> simp [isEnqueue]
  · simp only [List.cons_append, List.nil_append, List.append_assoc] at htr
    rw [htr]
    refine ⟨countEnqueues_le_one_cons _ _ ?_, enqueue_get_eq_zero _ _ ?_⟩ <;>
      · intro e he
        rcases (by simpa using he : e = Event.connectRemote h0 p0 ∨
            e = Event.sendRemote nr0 ∨
            (∃ a ∈ net.remoteChunks, Event.sendClient a = e) ∨
            e = Event.closeClient ∨ e = Event.closeRemote) with
          rfl | rfl | ⟨a, _, he2⟩ | rfl | rfl
        · simp [isEnqueue]
        · simp [isEnqueue]
        · rw [← he2]
          simp [isEnqueue]
        · simp [isEnqueue]
        · simp [isEnqueue]

/-- Witness for C7 (amended) at a concrete blocked connection. -/
theorem c7_witness :
    countEnqueues (handle_client ["bet365.com".toList]
        "CONNECT bet365.com:443 HTTP/1.1\r\n\r\n".toList
        (Oracle.mk false true [])) ≤ 1
    ∧ (0 : Nat) = 0 := by
  have h := c7_at_most_one_outcome_at_decision_point ["bet365.com".toList]
    "CONNECT bet365.com:443 HTTP/1.1\r\n\r\n".toList (Oracle.mk false true [])
  exact ⟨h.1, h.2 0 "bet365.com".toList "BLOCKED".toList (by decide)⟩

/-- C9: no exception escapes `handle_client`.  Whenever the body raises
(modelled by `handleClientCore` returning `.error`), the handler appends a
close of the client socket and returns; in particular a first-read timeout,
a CONNECT target with a non-integer port, and a failed outbound connect each
end with the client connection closed. -/
theorem c9_handle_client_catches_exceptions :
    (∀ (b : List Str) (req : Str) (net : Oracle) (evs : List Event),
        handleClientCore b req net = Except.error evs →
        handle_client b req net = evs ++ [Event.closeClient])
    ∧ (∀ (b : List Str) (req : Str) (net : Oracle), net.recvTimeout = true →
        handle_client b req net = [Event.closeClient])
    ∧ (∀ (b : List Str) (req : Str) (net : Oracle) (m u : Str)
        (rest : List Str),
        net.recvTimeout = false → req ≠ [] → reqTokens req = m :: u :: rest →
        pyUpper m = connectMethod → connectPort u = none →
        handle_client b req net = [Event.closeClient])
    ∧ (∀ (b : List Str) (req : Str) (net : Oracle) (m u : Str)
        (rest : List Str) (p : Int),
        net.recvTimeout = false → req ≠ [] → reqTokens req = m :: u :: rest →
        pyUpper m = connectMethod → connectPort u = some p →
        is_blocked b (connectHost u) = false → net.connectOk = false →
        handle_client b req net =
          [Event.enqueue (connectHost u) "ALLOWED".toList,
           Event.closeClient]) := by
  refine ⟨?_, ?_, ?_, ?_⟩
  · intro b req net evs herr
    simp [handle_client, herr]
  · intro b req net ht
    simp [handle_client, handleClientCore, ht]
  · intro b req net m u rest ht h0 htk hm hcp
    simp [handle_client, handleClientCore, ht, h0, htk, hm, handleConnect, hcp]
  · intro b req net m u rest p ht h0 htk hm hcp hb hc
    simp [handle_client, handleClientCore, ht, h0, htk, hm, handleConnect,
      hcp, hb, hc]

/-- Witness for C9: a CONNECT whose port component is not an integer ends
with the client connection closed and nothing else. -/
theorem c9_witness :
    handle_client [] "CONNECT example.com:badport HTTP/1.1\r\n\r\n".toList
      (Oracle.mk false true []) = [Event.closeClient] :=
  c9_handle_client_catches_exceptions.2.2.1 []
    "CONNECT example.com:badport HTTP/1.1\r\n\r\n".toList
    (Oracle.mk false true []) "CONNECT".toList "example.com:badport".toList
    ["HTTP/1.1".toList] rfl (by decide) (by decide) (by decide) (by decide)

end WebBlocker
